import Mathlib

/-!
Shallow embedding of the tuotehaku-showcase repository.

Source files embedded here:
- src/pricing_example.py        (PricingEngine)
- src/backend/supplier_update_example.py  (XML ETL: process_data_to_db)
- src/supplier_import_legacy.py (CSV ETL: run_import_pipeline)
- src/app_showcase.py           (FastAPI search endpoint)
- src/app.py                    (cached demo search endpoint)

Python strings are modeled as Lean String values processed on their
character lists; Python floats are modeled as exact rationals with
round = round-half-to-even (the idealized decimal reading of the
round(x, 2) calls in the source); Python None-able values are Option;
a Python exception that would skip a record is Option.none.
-/

/-! ## Python-style string primitives -/

/-- Characters Python str.strip and float() treat as whitespace. -/
def pySpace (c : Char) : Bool :=
  c = ' ' ∨ c = '\t' ∨ c = '\n' ∨ c = '\r'

/-- Remove whitespace from both ends of a character list. -/
def trimChars (cs : List Char) : List Char :=
  ((cs.dropWhile pySpace).reverse.dropWhile pySpace).reverse

/-- Python str.strip(). -/
def pyStrip (s : String) : String :=
  String.mk (trimChars s.toList)

/-- Python str.lower() for the characters the sources use
(ASCII letters plus the Finnish letters Ä, Ö, Å). -/
def pyLowerChar (c : Char) : Char :=
  if 'A' ≤ c ∧ c ≤ 'Z' then Char.ofNat (c.toNat + 32)
  else if c = 'Ä' then 'ä'
  else if c = 'Ö' then 'ö'
  else if c = 'Å' then 'å'
  else c

/-- Python str.lower() on a whole string. -/
def pyLower (s : String) : String :=
  String.mk (s.toList.map pyLowerChar)

/-- Split a character list at every separator characterized by sep,
keeping empty groups (Python str.split(";") behaviour). -/
def splitWhen (sep : Char → Bool) : List Char → List (List Char)
  | [] => [[]]
  | c :: rest =>
    let r := splitWhen sep rest
    if sep c then [] :: r
    else
      match r with
      | [] => [[c]]
      | g :: gs => (c :: g) :: gs

/-- Python raw_line.split(";") from the CSV pipeline. -/
def splitSemi (line : String) : List String :=
  (splitWhen (fun c => c = ';') line.toList).map String.mk

/-- Is n a prefix of the second list? -/
def isPre : List Char → List Char → Bool
  | [], _ => true
  | _ :: _, [] => false
  | a :: as, b :: bs => a = b && isPre as bs

/-- Is n a contiguous substring of the second list?  Models both
Python `x in y` and SQL LIKE with a pattern of shape %x%. -/
def subStr (n : List Char) : List Char → Bool
  | [] => n.isEmpty
  | b :: bs => isPre n (b :: bs) || subStr n bs

/-- Association-list lookup with string keys (Python dict.get). -/
def alistGet {α : Type} : List (String × α) → String → Option α
  | [], _ => none
  | (k', v) :: rest, k => if k' = k then some v else alistGet rest k

/-! ## Rational arithmetic mirroring the Python numeric calls -/

/-- Python round() to an integer: round half to even. -/
def roundHalfEven (q : ℚ) : ℤ :=
  if q - ⌊q⌋ < 1/2 then ⌊q⌋
  else if q - ⌊q⌋ > 1/2 then ⌊q⌋ + 1
  else if ⌊q⌋ % 2 = 0 then ⌊q⌋ else ⌊q⌋ + 1

/-- Python round(x, 2). -/
def roundTo2 (q : ℚ) : ℚ :=
  (roundHalfEven (q * 100) : ℚ) / 100

/-- Python int() applied to a float: truncate toward zero. -/
def pyTrunc (q : ℚ) : ℤ :=
  if 0 ≤ q then ⌊q⌋ else -⌊-q⌋

/-- Value of a nonempty digit string. -/
def digitsToNat (cs : List Char) : ℕ :=
  cs.foldl (fun acc c => acc * 10 + (c.toNat - '0'.toNat)) 0

/-- Does the list consist only of decimal digits, and is it nonempty? -/
def allDigits (cs : List Char) : Bool :=
  cs.all (fun c => '0' ≤ c && c ≤ '9') && !cs.isEmpty

/-- Python float() on the plain decimal literals the supplier feeds carry:
optional sign, digits, optional fractional part.  none models the
ValueError float() raises on anything else. -/
def parsePyFloat (s : String) : Option ℚ :=
  let cs := trimChars s.toList
  let signBody : Bool × List Char :=
    match cs with
    | '-' :: rest => (true, rest)
    | '+' :: rest => (false, rest)
    | _ => (false, cs)
  let sign := signBody.1
  let body := signBody.2
  let fin : ℚ → Option ℚ := fun q => some (if sign then -q else q)
  match splitWhen (fun c => c = '.') body with
  | [ip] => if allDigits ip then fin (digitsToNat ip) else none
  | [ip, fp] =>
    if (allDigits ip || ip.isEmpty) && (allDigits fp || fp.isEmpty)
        && !(ip.isEmpty && fp.isEmpty) then
      fin ((digitsToNat ip : ℚ) + (digitsToNat fp : ℚ) / (10 ^ fp.length))
    else none
  | _ => none

/-! ## src/pricing_example.py : PricingEngine -/

/-- PricingEngine.VAT_RATE = 0.255. -/
def PricingEngine.VAT_RATE : ℚ := 255/1000

/-- PricingEngine.calculate_gross_price with the class constant VAT_RATE
made a parameter, so that a change of the constant can be expressed. -/
def calcGrossWithRate (rate : ℚ) (net_price : Option ℚ) : ℚ :=
  match net_price with
  | none => 0
  | some p => roundTo2 (p * (1 + rate))

/-- PricingEngine.calculate_gross_price: None yields 0.0, otherwise
round(net_price * (1 + VAT_RATE), 2). -/
def PricingEngine.calculate_gross_price (net_price : Option ℚ) : ℚ :=
  calcGrossWithRate PricingEngine.VAT_RATE net_price

/-- PricingEngine.get_margin_for_category. -/
def PricingEngine.get_margin_for_category (category : String) : ℚ :=
  if subStr "cable".toList (pyLower category).toList then 140/100 else 125/100

/-! ## Loosely-typed document values (xmltodict output re-read with json.load) -/

/-- A value of the JSON tree the XML feed is converted into.
xmltodict produces exactly null, strings, objects and arrays. -/
inductive JVal where
  | jnull : JVal
  | jstr : String → JVal
  | jobj : List (String × JVal) → JVal
  | jarr : List JVal → JVal

/-- Python truthiness of such a value. -/
def jTruthy : JVal → Bool
  | .jnull => false
  | .jstr s => !(s = "")
  | .jobj fs => !fs.isEmpty
  | .jarr l => !l.isEmpty

/-- Truthiness of a value that may be the Python None returned by dict.get. -/
def jTruthyOpt : Option JVal → Bool
  | none => false
  | some v => jTruthy v

/-- Python x or y on document values: x when truthy, else y. -/
def pyOr (a b : Option JVal) : Option JVal :=
  if jTruthyOpt a then a else b

/-- Python (d.get(k) or dflt): the stored value when truthy, else dflt. -/
def orDefault (a : Option JVal) (dflt : JVal) : JVal :=
  (pyOr a (some dflt)).getD dflt

/-- The fields of a value when it is a dict; none models the
AttributeError a dict method raises on any other value. -/
def asObjFields : JVal → Option (List (String × JVal))
  | .jobj fs => some fs
  | _ => none

/-- The text of a value when it is a string; none models the
AttributeError str.strip() raises on any other value. -/
def asStr : JVal → Option String
  | .jstr s => some s
  | _ => none

/-- _safe_get from supplier_update_example.py: walk keys through nested
dicts, returning Python None (here: none) whenever a level is not a
dict, a key is absent, or the reached value is null. -/
def safeGet : JVal → List String → Option JVal
  | .jnull, [] => none
  | v, [] => some v
  | .jobj fs, k :: ks => (alistGet fs k).bind (fun v' => safeGet v' ks)
  | _, _ :: _ => none

/-- Python str() of a document value as the XML pipeline applies it to
(ids.get("ItemNumber") or "").  Container reprs are abbreviated; the
source only ever reaches them on malformed feeds. -/
def pyStrVal : JVal → String
  | .jnull => "None"
  | .jstr s => s
  | .jobj _ => "object"
  | .jarr _ => "list"

/-! ## src/backend/supplier_update_example.py : process_data_to_db -/

/-- The local VAT constant of the XML ETL script (VAT_RATE = 0.255 at
module level of supplier_update_example.py, distinct from the constant
in pricing_example.py). -/
def xmlVatRate : ℚ := 255/1000

/-- gross_price = round(net_price * (1 + VAT_RATE), 2) computed locally
inside process_data_to_db. -/
def xmlGross (net : ℚ) : ℚ :=
  roundTo2 (net * (1 + xmlVatRate))

/-- The XML adapter's gross price as a function of the engine's rate:
the script never reads PricingEngine.VAT_RATE, so the engine rate is
ignored. -/
def xmlGrossUnderEngineRate (_rate : ℚ) (net : ℚ) : ℚ :=
  xmlGross net

/-- float(x or 0) on a value fetched with _safe_get: falsy values become
0, strings are parsed, truthy non-strings raise (none). -/
def floatArg (v : Option JVal) : Option ℚ :=
  match v with
  | none => some 0
  | some j =>
    if jTruthy j then
      match j with
      | .jstr s => parsePyFloat s
      | _ => none
    else some 0

/-- asset.get("Type") == "primary_picture". -/
def typeIsPrimary (v : Option JVal) : Bool :=
  match v with
  | some (.jstr s) => s = "primary_picture"
  | _ => false

/-- The image-search loop over a list-valued Assets/Asset node.
none models an exception escaping the loop (a non-dict asset). -/
def imageScan : List JVal → Option JVal
  | [] => some .jnull
  | a :: rest => do
    let afs ← asObjFields a
    if typeIsPrimary (alistGet afs "Type") then
      pure ((pyOr (safeGet a ["Value", "#text"]) (alistGet afs "Value")).getD .jnull)
    else imageScan rest

/-- One row of the products table as the XML pipeline inserts it
(columns of the INSERT in source order; raw holds the source record
that raw_data serializes). -/
structure XmlRow where
  supplier_id : ℕ
  supplier_name : String
  name : JVal
  brand : String
  ean : JVal
  category : JVal
  price : ℚ
  price_inc : ℚ
  stock : ℤ
  link : JVal
  image : JVal
  raw : JVal

/-- The identifier resolution of the loop: prefer the Barcode text,
else str(ids.get("ItemNumber") or "") — which requires Identifiers to
be a dict (none models the AttributeError on a list there). -/
def xmlEan (fs : List (String × JVal)) : Option JVal :=
  let ids := (alistGet fs "Identifiers").getD (.jobj [])
  let eanBar := safeGet ids ["Barcode", "#text"]
  if jTruthyOpt eanBar then some (eanBar.getD .jnull)
  else
    match asObjFields ids with
    | none => none
    | some ifs => some (.jstr (pyStrVal (orDefault (alistGet ifs "ItemNumber") (.jstr ""))))

/-- The category resolution of the loop: last element of a nonempty
list (which must be a dict), a dict's own text, else "Uncategorized". -/
def xmlCategory (row : JVal) : Option JVal :=
  match safeGet row ["Categories", "Category"] with
  | some (.jarr l) =>
    if l.isEmpty then some (.jstr "Uncategorized")
    else
      match asObjFields (l.getLastD JVal.jnull) with
      | none => none
      | some lfs => some ((alistGet lfs "#text").getD JVal.jnull)
  | some (.jobj gfs) => some ((alistGet gfs "#text").getD .jnull)
  | _ => some (.jstr "Uncategorized")

/-- The image resolution of the loop. -/
def xmlImage (row : JVal) : Option JVal :=
  match safeGet row ["Assets", "Asset"] with
  | some (.jarr l) => imageScan l
  | some (.jobj afs) =>
    if typeIsPrimary (alistGet afs "Type") then
      some ((safeGet (.jobj afs) ["Value", "#text"]).getD .jnull)
    else some .jnull
  | _ => some .jnull

/-- The price-and-stock resolution of the loop: the inner try computes
net price, gross price and stock, and its except resets all three. -/
def xmlNums (row : JVal) : ℚ × ℚ × ℤ :=
  match floatArg (safeGet row ["Prices", "NetPrice", "#text"]),
      (floatArg (safeGet row ["Inventory", "OnHand"])).map pyTrunc with
  | some n, some st => (n, xmlGross n, st)
  | _, _ => (0, 0, 0)

/-- The per-row body of the loop in process_data_to_db.  some r is a
row reaching cursor.execute; none is a row skipped by the
per-row except handler. -/
def processRowXml (row : JVal) : Option XmlRow :=
  match asObjFields row with
  | none => none
  | some fs =>
    match asStr (orDefault (alistGet fs "Brand") (.jstr "")) with
    | none => none
    | some brand0 =>
      let brand := pyStrip brand0
      let descs := (alistGet fs "Descriptions").getD (.jobj [])
      let name := (pyOr (safeGet descs ["ProductName", "#text"])
          (pyOr (safeGet descs ["ProductNameWeb", "#text"])
            (some (.jstr (brand ++ " Product"))))).getD .jnull
      match xmlEan fs with
      | none => none
      | some ean =>
        let nums := xmlNums row
        match xmlCategory row with
        | none => none
        | some category =>
          let link := (pyOr (safeGet descs ["ProductUrl", "#text"])
              (some (.jstr "#"))).getD .jnull
          match xmlImage row with
          | none => none
          | some image =>
            some { supplier_id := 1, supplier_name := "GlobalWholesale",
                   name := name, brand := brand, ean := ean, category := category,
                   price := nums.1, price_inc := nums.2.1, stock := nums.2.2,
                   link := link, image := image, raw := row }

/-- products_list = _safe_get(data, "ns0:PriceList", "Products", "Product"). -/
def productsNode (data : JVal) : Option JVal :=
  safeGet data ["ns0:PriceList", "Products", "Product"]

/-- The sequence the loop iterates: a falsy node aborts the run early, a
dict is wrapped into a one-element list, a list is used as is, and a
(degenerate) string would be iterated character by character. -/
def xmlIterItems (data : JVal) : List JVal :=
  match productsNode data with
  | none => []
  | some v =>
    if jTruthy v then
      match v with
      | .jobj fs => [.jobj fs]
      | .jarr l => l
      | .jstr s => s.toList.map (fun c => JVal.jstr (String.mk [c]))
      | .jnull => []
    else []

/-- The rows a run of process_data_to_db inserts. -/
def xmlInserted (data : JVal) : List XmlRow :=
  (xmlIterItems data).filterMap processRowXml

/-- skipped_count of a run. -/
def xmlSkipped (data : JVal) : ℕ :=
  ((xmlIterItems data).filter (fun r => (processRowXml r).isNone)).length

/-! ## src/supplier_import_legacy.py : run_import_pipeline -/

/-- One row of the products table as the CSV pipeline inserts it
(columns of the INSERT in source order; raw holds the raw line the
source serializes into raw_data). -/
structure LegacyRow where
  supplier_id : ℕ
  supplier_name : String
  name : String
  brand : String
  category : String
  category_raw : String
  price : ℚ
  price_inc : ℚ
  stock : ℤ
  link : String
  image : Option String
  ean : Option String
  raw : String

/-- raw_line.split(";") of one pricelist line. -/
def legacyCols (line : String) : List String :=
  splitSemi line

/-- float(s or 0): an empty cell becomes 0, otherwise the cell is parsed. -/
def floatOrZeroStr (s : String) : Option ℚ :=
  if s = "" then some 0 else parsePyFloat s

/-- base_stock and price of a line: int(float(cols[4] or 0)) and
float(cols[5] or 0), with the shared except ValueError falling back to
(0, 0.0). -/
def legacyNums (cols : List String) : ℤ × ℚ :=
  match floatOrZeroStr (cols.getD 4 ""), floatOrZeroStr (cols.getD 5 "") with
  | some s, some p => (pyTrunc s, p)
  | _, _ => (0, 0)

/-- The stock-enrichment step of run_import_pipeline: a truthy value in
the stock map overrides the pricelist's own stock via
int(float(external_stock)); none models the uncaught ValueError that
skips the whole row when that value does not parse. -/
def finalStock (stockMap : List (String × String)) (product_id : String)
    (base : ℤ) : Option ℤ :=
  match alistGet stockMap product_id with
  | some v => if v = "" then some base else (parsePyFloat v).map pyTrunc
  | none => some base

/-- The per-row body of the loop in run_import_pipeline, with the
engine's VAT constant made a parameter (the source computes price_inc
through PricingEngine.calculate_gross_price).  some r is a row reaching
cursor.execute; none is a row skipped by continue or by the per-row
except handler. -/
def legacyProcessRowR (rate : ℚ) (stockMap : List (String × String))
    (line : String) : Option LegacyRow :=
  let cols := legacyCols line
  if cols.length < 7 then none
  else
    let brand := pyStrip (cols.getD 0 "")
    let product_id := pyStrip (cols.getD 1 "")
    let category_raw := pyStrip (cols.getD 2 "")
    let name := pyStrip (cols.getD 3 "")
    let nums := legacyNums cols
    let ean := pyStrip (cols.getD 6 "")
    if product_id = "" ∧ ean = "" then none
    else
      match finalStock stockMap product_id nums.1 with
      | none => none
      | some st =>
        some { supplier_id := 2, supplier_name := "Supplier B (Nordic)",
               name := name, brand := brand,
               category := category_raw, category_raw := category_raw,
               price := nums.2, price_inc := calcGrossWithRate rate (some nums.2),
               stock := st,
               link := "https://shop.supplier-b.com/detail?id=" ++ product_id,
               image := none,
               ean := if ean = "" then none else some ean,
               raw := line }

/-- The per-row body with the engine constant as the source has it. -/
def legacyProcessRow (stockMap : List (String × String)) (line : String) :
    Option LegacyRow :=
  legacyProcessRowR PricingEngine.VAT_RATE stockMap line

/-- The rows a run of run_import_pipeline inserts. -/
def legacyInserted (stockMap : List (String × String)) (lines : List String) :
    List LegacyRow :=
  lines.filterMap (legacyProcessRow stockMap)

/-! ## The write statements an ingestion run executes -/

/-- A DB write statement: the full-refresh DELETE of one supplier's
rows, or an INSERT ... ON DUPLICATE KEY UPDATE (upsert) of one row. -/
inductive WriteOp where
  | deleteAll : ℕ → WriteOp
  | upsertXml : XmlRow → WriteOp
  | upsertLegacy : LegacyRow → WriteOp

/-- Is the statement an upsert-style write? -/
def isUpsertOp : WriteOp → Bool
  | .deleteAll _ => false
  | .upsertXml _ => true
  | .upsertLegacy _ => true

/-- Statements executed by one run of process_data_to_db: nothing when
the products node is falsy; otherwise the DELETE for supplier 1
followed by one upsert per surviving row. -/
def xmlRunTrace (data : JVal) : List WriteOp :=
  if jTruthyOpt (productsNode data) then
    WriteOp.deleteAll 1 :: (xmlInserted data).map WriteOp.upsertXml
  else []

/-- Statements executed by one run of run_import_pipeline: the DELETE
for supplier 2 followed by one upsert per surviving row. -/
def legacyRunTrace (stockMap : List (String × String)) (lines : List String) :
    List WriteOp :=
  WriteOp.deleteAll 2 :: (legacyInserted stockMap lines).map WriteOp.upsertLegacy

/-- A trace contains the full-refresh style of write. -/
def usesFullRefresh (t : List WriteOp) : Prop :=
  ∃ sid, WriteOp.deleteAll sid ∈ t

/-- A trace contains the incremental-upsert style of write. -/
def usesUpsertStyle (t : List WriteOp) : Prop :=
  ∃ op ∈ t, isUpsertOp op = true

/-! ## src/app_showcase.py : tokenization and the /search endpoint -/

/-- Characters normalize_string keeps: a-z, 0-9, ä, ö, å, dot, hyphen. -/
def allowedChar (c : Char) : Bool :=
  ('a' ≤ c ∧ c ≤ 'z') ∨ ('0' ≤ c ∧ c ≤ '9') ∨
    c = 'ä' ∨ c = 'ö' ∨ c = 'å' ∨ c = '.' ∨ c = '-'

/-- Collapse runs of spaces to a single space. -/
def collapseSpaces : List Char → List Char
  | [] => []
  | [c] => [c]
  | a :: b :: rest =>
    if a = ' ' ∧ b = ' ' then collapseSpaces (b :: rest)
    else a :: collapseSpaces (b :: rest)

/-- normalize_string: lowercase, replace every run of disallowed
characters by one space, collapse whitespace, strip. -/
def normalize_string (text : String) : String :=
  String.mk (trimChars (collapseSpaces
    ((pyLower text).toList.map (fun c => if allowedChar c then c else ' '))))

/-- split_search_terms: the tokens of normalized.split() of length at
least 2 (the source's second component is always the empty list). -/
def split_search_terms (raw_query : String) : List String :=
  (((splitWhen (fun c => c = ' ') (normalize_string raw_query).toList).filter
      (fun w => !w.isEmpty)).map String.mk).filter (fun t => 2 ≤ t.length)

/-- One row of the products table as the showcase SELECT returns it. -/
structure DbRow where
  supplier_id : ℕ
  supplier_name : String
  name : Option String
  brand : Option String
  price : ℚ
  price_vat : ℚ
  stock : ℤ
  ean : Option String
  link : Option String
  image : Option String
deriving DecidableEq

/-- SQL LOWER(col) LIKE concat of percent, tok, percent; a NULL column
never matches. -/
def sqlLike (tok : String) (field : Option String) : Bool :=
  match field with
  | none => false
  | some s => subStr tok.toList (pyLower s).toList

/-- The strict-mode WHERE built by build_strict_search_query: every
token must appear in LOWER(name) or LOWER(brand). -/
def strictRowMatch (tokens : List String) (r : DbRow) : Bool :=
  tokens.all (fun t => sqlLike t r.name || sqlLike t r.brand)

/-- A MySQL full-text word character as modeled here. -/
def ftWordChar (c : Char) : Bool :=
  ('a' ≤ c ∧ c ≤ 'z') ∨ ('0' ≤ c ∧ c ≤ '9') ∨ c = 'ä' ∨ c = 'ö' ∨ c = 'å'

/-- The words of a column value for full-text matching. -/
def ftWordsList (field : Option String) : List (List Char) :=
  match field with
  | none => []
  | some s => (splitWhen (fun c => !ftWordChar c) (pyLower s).toList).filter
      (fun w => !w.isEmpty)

/-- The fuzzy-mode WHERE built by build_fuzzy_search_query:
MATCH(name, brand) AGAINST a boolean query of +tok* terms — every
token must be a prefix of some word of name or brand. -/
def fuzzyRowMatch (tokens : List String) (r : DbRow) : Bool :=
  tokens.all (fun t =>
    (ftWordsList r.name ++ ftWordsList r.brand).any (fun w => isPre t.toList w))

/-- The base WHERE condition: stock > 0 when in_stock is set. -/
def baseWhere (in_stock : Bool) (r : DbRow) : Bool :=
  if in_stock then decide (0 < r.stock) else true

/-- The full WHERE condition of the executed query. -/
def showcasePred (in_stock strict_mode : Bool) (tokens : List String)
    (r : DbRow) : Bool :=
  baseWhere in_stock r &&
    (if strict_mode then strictRowMatch tokens r else fuzzyRowMatch tokens r)

/-- ORDER BY price ASC. -/
def sortByPrice (l : List DbRow) : List DbRow :=
  l.insertionSort (fun a b => a.price ≤ b.price)

/-- Executing the built query against a table: WHERE, ORDER BY price
ASC, OFFSET, then LIMIT fetch many rows, with fetch = limit + 1 as the
endpoint requests. -/
def showcaseFetch (table : List DbRow) (pred : DbRow → Bool)
    (limit offset : ℕ) : List DbRow :=
  ((sortByPrice (table.filter pred)).drop offset).take (limit + 1)

/-- A result item of the showcase response. -/
structure ProductItem where
  provider : String
  name : String
  brand : Option String
  price : ℚ
  price_inc_vat : ℚ
  stock : ℤ
  link : Option String
  image : Option String
  ean : Option String
deriving DecidableEq

/-- The provider anonymization map with its Unknown Supplier default. -/
def provider_map (sid : ℕ) : String :=
  if sid = 1 then "Global Wholesale Ltd"
  else if sid = 2 then "Nordic Parts Oy"
  else "Unknown Supplier"

/-- Row-to-item formatting of the response loop. -/
def toItem (r : DbRow) : ProductItem :=
  { provider := provider_map r.supplier_id,
    name := match r.name with
            | some s => if s = "" then "N/A" else s
            | none => "N/A",
    brand := r.brand, price := r.price, price_inc_vat := r.price_vat,
    stock := r.stock, link := r.link, image := r.image, ean := r.ean }

/-- The showcase search response model. -/
structure SearchResponse where
  query : String
  products : List ProductItem
  has_more : Bool
  limit : ℕ
  offset : ℕ
deriving DecidableEq

/-- An HTTPException as status code plus detail. -/
structure HttpError where
  status : ℕ
  detail : String
deriving DecidableEq

/-- Which of the two built queries a request executes. -/
inductive QMode where
  | strictQ : QMode
  | fuzzyQ : QMode
deriving DecidableEq

/-- Total ordering instance for the ORDER BY price relation. -/
instance : IsTotal DbRow (fun a b => a.price ≤ b.price) :=
  ⟨fun a b => le_total a.price b.price⟩

/-- Transitivity instance for the ORDER BY price relation. -/
instance : IsTrans DbRow (fun a b => a.price ≤ b.price) :=
  ⟨fun _ _ _ => le_trans⟩

/-- The response search_products builds from the fetched rows: one row
beyond the limit signals has_more and is trimmed before returning. -/
def showcaseResp (table : List DbRow) (q : String)
    (in_stock strict_mode : Bool) (limit offset : ℕ) : SearchResponse :=
  let rows := showcaseFetch table
      (showcasePred in_stock strict_mode (split_search_terms (pyStrip q)))
      limit offset
  let has_more := decide (limit < rows.length)
  { query := pyStrip q,
    products := (if has_more then rows.take limit else rows).map toItem,
    has_more := has_more, limit := limit, offset := offset }

/-- The body of search_products inside the try block: the exception it
raises (400 on an empty token set), or the response together with the
list of queries executed.  The no-result fallback site in the source is
a no-op (pass), so exactly one query ever runs. -/
def showcaseBody (table : List DbRow) (q : String)
    (in_stock strict_mode : Bool) (limit offset : ℕ) :
    Except HttpError (SearchResponse × List QMode) :=
  if (split_search_terms (pyStrip q)).isEmpty then
    .error { status := 400, detail := "Hakusana liian lyhyt tai epäkelpo" }
  else
    .ok (showcaseResp table q in_stock strict_mode limit offset,
         [if strict_mode then QMode.strictQ else QMode.fuzzyQ])

/-- search_products as the caller sees it: the generic except handler
turns every exception raised in the body — including the 400 for an
empty token set — into a 500 Internal Server Error. -/
def showcaseSearch (table : List DbRow) (q : String)
    (in_stock strict_mode : Bool) (limit offset : ℕ) :
    Except HttpError SearchResponse :=
  match showcaseBody table q in_stock strict_mode limit offset with
  | .ok (r, _) => .ok r
  | .error _ =>
    .error { status := 500,
             detail := "Internal Server Error during search processing" }

/-- The queries one request executes. -/
def showcaseExecuted (table : List DbRow) (q : String)
    (in_stock strict_mode : Bool) (limit offset : ℕ) : List QMode :=
  match showcaseBody table q in_stock strict_mode limit offset with
  | .ok (_, t) => t
  | .error _ => []

/-! ## src/app.py : cached demo search -/

/-- A row of the demo products table / ProductOut payload. -/
structure AppProduct where
  id : ℕ
  sku : String
  name : String
  brand : Option String
  category : Option String
  price : Option ℚ
deriving DecidableEq

/-- How the f-string of cache_key renders an Optional[str]. -/
def pyShowOpt : Option String → String
  | none => "None"
  | some s => s

/-- cache_key from app.py: query and the two filters — the limit is not
part of the key. -/
def cache_key (query : String) (brand category : Option String) : String :=
  "q=" ++ query ++ "|brand=" ++ pyShowOpt brand ++ "|cat=" ++ pyShowOpt category

/-- Product.name.ilike of a percent-wrapped lowercased query:
case-insensitive containment. -/
def appLike (q : String) (field : String) : Bool :=
  subStr (pyLower q).toList (pyLower field).toList

/-- The dynamically composed WHERE of app.py's search: the ILIKE
disjunction over name and sku, plus the brand and category equality
filters that are only added for truthy parameters. -/
def appWhere (q : String) (brand category : Option String)
    (r : AppProduct) : Bool :=
  (appLike q r.name || appLike q r.sku) &&
    (match brand with
     | some b => if b = "" then true else decide (r.brand = some b)
     | none => true) &&
    (match category with
     | some c => if c = "" then true else decide (r.category = some c)
     | none => true)

/-- ORDER BY name ASC. -/
def sortByName (l : List AppProduct) : List AppProduct :=
  l.insertionSort (fun a b => a.name ≤ b.name)

/-- search_products of app.py over an explicit cache state: on a key
hit the cached list is returned untouched; on a miss the query runs
with the caller's limit and the result is stored under the key. -/
def app_search (db : List AppProduct) (cache : List (String × List AppProduct))
    (query : String) (brand category : Option String) (limit : ℕ) :
    List AppProduct × List (String × List AppProduct) :=
  let key := cache_key query brand category
  match alistGet cache key with
  | some v => (v, cache)
  | none =>
    let result := (sortByName (db.filter (appWhere query brand category))).take limit
    (result, (key, result) :: cache)

/-- A raw XML record that carries no Identifiers node at all — hence
neither a barcode nor an item number. -/
def xmlNoIdentifiers (row : JVal) : Bool :=
  match row with
  | .jobj fs => (alistGet fs "Identifiers").isNone
  | _ => false

/-! ## Concrete inputs used by witnesses and counterexamples -/

/-- A default row for Option.getD projections in closed statements. -/
def dummyLegacyRow : LegacyRow :=
  { supplier_id := 0, supplier_name := "", name := "", brand := "", category := "",
    category_raw := "", price := 0, price_inc := 0, stock := 0, link := "",
    image := none, ean := none, raw := "" }

/-- A default row for Option.getD projections in closed statements. -/
def dummyXmlRow : XmlRow :=
  { supplier_id := 0, supplier_name := "", name := JVal.jnull, brand := "",
    ean := JVal.jnull, category := JVal.jnull, price := 0, price_inc := 0,
    stock := 0, link := JVal.jnull, image := JVal.jnull, raw := JVal.jnull }

/-- A raw XML record carrying neither a Barcode nor an ItemNumber. -/
def rowNoIds : JVal :=
  JVal.jobj [("Brand", JVal.jstr "ACME")]

/-- A feed whose single product is rowNoIds. -/
def payloadNoIds : JVal :=
  JVal.jobj [("ns0:PriceList",
    JVal.jobj [("Products", JVal.jobj [("Product", rowNoIds)])])]

/-- A raw XML record identified by an ItemNumber. -/
def rowItemNum : JVal :=
  JVal.jobj [("Brand", JVal.jstr "ACME"),
    ("Identifiers", JVal.jobj [("ItemNumber", JVal.jstr "P1")])]

/-- A feed where the products path resolves to the single object
rowItemNum rather than a list. -/
def payloadOneObj : JVal :=
  JVal.jobj [("ns0:PriceList",
    JVal.jobj [("Products", JVal.jobj [("Product", rowItemNum)])])]

/-- A feed without the products path at all. -/
def payloadNoPath : JVal :=
  JVal.jobj [("SomethingElse", JVal.jstr "x")]

/-- An in-stock USB product row priced 5. -/
def rowUsbA : DbRow :=
  { supplier_id := 1, supplier_name := "GlobalWholesale", name := some "USB hub",
    brand := some "Acme", price := 5, price_vat := 6, stock := 3,
    ean := none, link := none, image := none }

/-- An in-stock USB product row priced 3. -/
def rowUsbB : DbRow :=
  { supplier_id := 2, supplier_name := "Supplier B (Nordic)",
    name := some "usb cable", brand := some "Beta", price := 3, price_vat := 4,
    stock := 2, ean := none, link := none, image := none }

/-- A two-row products table. -/
def tableUsb : List DbRow := [rowUsbA, rowUsbB]

/-! ## Shared evaluation lemmas -/

/-- A zero net price yields a zero gross price. -/
theorem xmlGross_zero : xmlGross 0 = 0 := by
  norm_num [xmlGross, roundTo2, roundHalfEven, xmlVatRate]

/-! ## C1 -/

/-- C1: for every net price p ≥ 0 the pricing calculator's gross
operation returns round(p * (1 + VAT_RATE), 2) with VAT_RATE = 0.255,
and for the input None it returns 0.0. -/
theorem C1_gross_price_formula (p : ℚ) (_hp : 0 ≤ p) :
    PricingEngine.calculate_gross_price (some p)
        = roundTo2 (p * (1 + PricingEngine.VAT_RATE))
      ∧ PricingEngine.calculate_gross_price none = 0
      ∧ PricingEngine.VAT_RATE = 255/1000 :=
  ⟨rfl, rfl, rfl⟩

/-- C1 witness: the theorem applied at p = 100, where the gross price
evaluates to 125.50. -/
theorem C1_gross_price_formula_witness :
    0 ≤ (100 : ℚ)
      ∧ (PricingEngine.calculate_gross_price (some 100)
            = roundTo2 (100 * (1 + PricingEngine.VAT_RATE))
          ∧ PricingEngine.calculate_gross_price none = 0
          ∧ PricingEngine.VAT_RATE = 255/1000)
      ∧ PricingEngine.calculate_gross_price (some 100) = 251/2 :=
  ⟨by norm_num, C1_gross_price_formula 100 (by norm_num),
    by norm_num [PricingEngine.calculate_gross_price, calcGrossWithRate,
      PricingEngine.VAT_RATE, roundTo2, roundHalfEven]⟩

/-! ## C2 -/

/-- C2 as stated is false: the XML adapter computes its gross price
from its own module constant, so its stored gross does not track the
engine's VAT_RATE — at engine rate 0.24 and net price 100 the adapter
stores 125.50 while the calculator returns 124.00. -/
theorem C2_counterexample :
    ¬ (∀ (rate net : ℚ),
        xmlGrossUnderEngineRate rate net = calcGrossWithRate rate (some net)) := by
  intro h
  have h1 := h (24/100) 100
  simp only [xmlGrossUnderEngineRate, xmlGross, xmlVatRate, calcGrossWithRate] at h1
  norm_num [roundTo2, roundHalfEven] at h1

/-- C2 amended: the legacy CSV adapter computes its stored gross price
through the central calculator (so it tracks any engine rate), and the
XML adapter computes it locally with its own constant, which happens to
equal the engine's current rate — so at the current rate its stored
gross also equals calculate_gross_price of its stored net price. -/
theorem C2_amended_vat_usage :
    (∀ (rate : ℚ) (m : List (String × String)) (line : String) (r : LegacyRow),
        legacyProcessRowR rate m line = some r →
        r.price_inc = calcGrossWithRate rate (some r.price))
      ∧ (∀ net : ℚ, xmlGross net = PricingEngine.calculate_gross_price (some net))
      ∧ (∀ (row : JVal) (r : XmlRow), processRowXml row = some r →
          r.price_inc = xmlGross r.price) := by
  refine ⟨?_, fun net => rfl, ?_⟩
  · intro rate m line r h
    simp only [legacyProcessRowR] at h
    split at h
    · exact absurd h (by simp)
    · split at h
      · exact absurd h (by simp)
      · split at h
        · exact absurd h (by simp)
        · simp only [Option.some.injEq] at h
          subst h
          rfl
  · intro row r h
    simp only [processRowXml] at h
    split at h
    · exact absurd h (by simp)
    · split at h
      · exact absurd h (by simp)
      · split at h
        · exact absurd h (by simp)
        · split at h
          · exact absurd h (by simp)
          · split at h
            · exact absurd h (by simp)
            · simp only [Option.some.injEq] at h
              subst h
              show (xmlNums row).2.1 = xmlGross (xmlNums row).1
              unfold xmlNums
              split
              · rfl
              · exact xmlGross_zero.symm

/-- C2 amended witness: the legacy row of a concrete line under engine
rate 0.1 stores gross 11 for net 10, and the XML row of a concrete
record satisfies the local-gross equation. -/
theorem C2_amended_vat_usage_witness :
    legacyProcessRowR (1/10) [] "B;P1;cat;Name;5;10;E1"
        = some ((legacyProcessRowR (1/10) [] "B;P1;cat;Name;5;10;E1").getD dummyLegacyRow)
      ∧ ((legacyProcessRowR (1/10) [] "B;P1;cat;Name;5;10;E1").getD dummyLegacyRow).price_inc
          = calcGrossWithRate (1/10)
              (some ((legacyProcessRowR (1/10) [] "B;P1;cat;Name;5;10;E1").getD dummyLegacyRow).price)
      ∧ ((legacyProcessRowR (1/10) [] "B;P1;cat;Name;5;10;E1").getD dummyLegacyRow).price_inc = 11
      ∧ xmlGross 100 = PricingEngine.calculate_gross_price (some 100)
      ∧ processRowXml rowItemNum
          = some ((processRowXml rowItemNum).getD dummyXmlRow)
      ∧ ((processRowXml rowItemNum).getD dummyXmlRow).price_inc
          = xmlGross ((processRowXml rowItemNum).getD dummyXmlRow).price := by
  have h1 : legacyProcessRowR (1/10) [] "B;P1;cat;Name;5;10;E1"
      = some ((legacyProcessRowR (1/10) [] "B;P1;cat;Name;5;10;E1").getD dummyLegacyRow) := rfl
  have h2 : processRowXml rowItemNum = some ((processRowXml rowItemNum).getD dummyXmlRow) := rfl
  refine ⟨h1, C2_amended_vat_usage.1 (1/10) [] _ _ h1, ?_,
    C2_amended_vat_usage.2.1 100, h2,
    C2_amended_vat_usage.2.2 rowItemNum _ h2⟩
  show calcGrossWithRate (1/10) (some ((10:ℕ) : ℚ)) = 11
  norm_num [calcGrossWithRate, roundTo2, roundHalfEven]

/-! ## C10 -/

/-- C10: two calls to the cached search with the same query, brand and
category but different limits — the second call returns the first
call's cached list unchanged, whose row count reflects the first
call's limit. -/
theorem C10_cache_key_ignores_limit :
    ∀ (db : List AppProduct) (q : String) (brand category : Option String)
      (l1 l2 : ℕ),
      (app_search db (app_search db [] q brand category l1).2 q brand category l2).1
          = (app_search db [] q brand category l1).1
        ∧ (app_search db [] q brand category l1).1.length ≤ l1 := by
  intro db q b c l1 l2
  constructor
  · simp [app_search, alistGet]
  · simp only [app_search, alistGet]
    exact List.length_take_le _ _

/-! ## C4 -/

/-- C4 is right about the intent but the code is wrong: for a query
whose token set is empty after tokenization the body raises the 400
client error, but the blanket except handler of search_products
converts it into a 500 Internal Server Error, so the caller receives a
server error instead of the client error. -/
theorem C4_empty_tokens_yield_500 :
    showcaseSearch [] "a b" true true 50 0
        = Except.error
            { status := 500,
              detail := "Internal Server Error during search processing" }
      ∧ showcaseBody [] "a b" true true 50 0
          = Except.error
              { status := 400, detail := "Hakusana liian lyhyt tai epäkelpo" }
      ∧ split_search_terms (pyStrip "a b") = [] :=
  ⟨rfl, rfl, rfl⟩

/-! ## C5 -/

/-- C5 as stated is false: at table [], query "usb", strict mode on and
offset 0 the strict query yields no rows, yet no fuzzy query is
executed — the fallback site in the source is a no-op pass. -/
theorem C5_counterexample :
    ¬ (∀ (table : List DbRow) (q : String) (in_stock : Bool) (limit offset : ℕ),
        split_search_terms (pyStrip q) ≠ [] →
        showcaseFetch table
            (showcasePred in_stock true (split_search_terms (pyStrip q)))
            limit offset = [] →
        offset = 0 →
        QMode.fuzzyQ ∈ showcaseExecuted table q in_stock true limit offset) := by
  intro h
  have h1 := h [] "usb" true 50 0 (by decide) (by rfl) rfl
  rw [show showcaseExecuted [] "usb" true true 50 0 = [QMode.strictQ] from rfl] at h1
  simp at h1

/-- C5 amended: every request executes exactly one of the two built
queries, chosen by strict_mode alone (none when the token set is
empty); in particular a strict search that yields no results returns
that empty result and never falls back to the fuzzy query. -/
theorem C5_amended_no_fallback :
    ∀ (table : List DbRow) (q : String) (in_stock strict_mode : Bool)
      (limit offset : ℕ),
      (showcaseExecuted table q in_stock strict_mode limit offset
          = if (split_search_terms (pyStrip q)).isEmpty then []
            else [if strict_mode then QMode.strictQ else QMode.fuzzyQ])
        ∧ ((split_search_terms (pyStrip q)).isEmpty = false →
            showcaseFetch table
                (showcasePred in_stock strict_mode (split_search_terms (pyStrip q)))
                limit offset = [] →
            showcaseSearch table q in_stock strict_mode limit offset
                = Except.ok (showcaseResp table q in_stock strict_mode limit offset)
              ∧ (showcaseResp table q in_stock strict_mode limit offset).products
                  = []) := by
  intro table q i s l o
  constructor
  · unfold showcaseExecuted showcaseBody
    by_cases hemp : (split_search_terms (pyStrip q)).isEmpty = true
    · simp [hemp]
    · simp [hemp]
  · intro hne hrows
    constructor
    · simp [showcaseSearch, showcaseBody, hne]
    · simp [showcaseResp, hrows]

/-- C5 amended witness: on the empty table with query usb and strict
mode on, exactly the strict query runs, no strict row is fetched, and
the endpoint returns the empty result. -/
theorem C5_amended_no_fallback_witness :
    showcaseExecuted [] "usb" true true 50 0
        = (if (split_search_terms (pyStrip "usb")).isEmpty then []
           else [if true then QMode.strictQ else QMode.fuzzyQ])
      ∧ (split_search_terms (pyStrip "usb")).isEmpty = false
      ∧ showcaseFetch []
          (showcasePred true true (split_search_terms (pyStrip "usb"))) 50 0 = []
      ∧ showcaseSearch [] "usb" true true 50 0
          = Except.ok (showcaseResp [] "usb" true true 50 0)
      ∧ (showcaseResp [] "usb" true true 50 0).products = [] := by
  have h := C5_amended_no_fallback [] "usb" true true 50 0
  have h2 := h.2 (by decide) rfl
  exact ⟨h.1, by decide, rfl, h2.1, h2.2⟩

/-! ## C6 -/

/-- C6 as stated is false: the XML run on a concrete one-product feed
performs the full-refresh DELETE of the supplier's rows and also writes
the row with an INSERT ... ON DUPLICATE KEY UPDATE upsert — both write
styles occur within the single ingestion run. -/
theorem C6_counterexample :
    usesFullRefresh (xmlRunTrace payloadOneObj)
      ∧ usesUpsertStyle (xmlRunTrace payloadOneObj) := by
  have htrace : xmlRunTrace payloadOneObj
      = [WriteOp.deleteAll 1,
         WriteOp.upsertXml ((processRowXml rowItemNum).getD dummyXmlRow)] := rfl
  constructor
  · exact ⟨1, by rw [htrace]; exact List.mem_cons_self _ _⟩
  · exact ⟨WriteOp.upsertXml ((processRowXml rowItemNum).getD dummyXmlRow),
      by rw [htrace]; exact List.mem_cons_of_mem _ (List.mem_cons_self _ _), rfl⟩

/-- C6 amended: each ingestion run combines the two styles in a fixed
shape — its first statement is the full-refresh DELETE of that
supplier's rows (for the XML run: whenever the products node is
truthy), and every following statement is an upsert. -/
theorem C6_amended_delete_then_upserts :
    (∀ data : JVal,
        (xmlRunTrace data).head?
            = (if jTruthyOpt (productsNode data) then some (WriteOp.deleteAll 1)
               else none)
          ∧ (xmlRunTrace data).tail.all isUpsertOp = true)
      ∧ (∀ (stockMap : List (String × String)) (lines : List String),
          (legacyRunTrace stockMap lines).head? = some (WriteOp.deleteAll 2)
            ∧ (legacyRunTrace stockMap lines).tail.all isUpsertOp = true) := by
  constructor
  · intro data
    unfold xmlRunTrace
    by_cases h : jTruthyOpt (productsNode data) = true
    · simp [h, List.all_map, isUpsertOp]
    · simp [h]
  · intro stockMap lines
    unfold legacyRunTrace
    simp [List.all_map, isUpsertOp]

/-! ## C3 -/

/-- C3 as stated is false: the XML pipeline persists the concrete
record rowNoIds, which carries neither a barcode nor an item number —
the run inserts it with an empty-string identifier and counts nothing
as skipped. -/
theorem C3_counterexample :
    xmlNoIdentifiers rowNoIds = true
      ∧ processRowXml rowNoIds = some ((processRowXml rowNoIds).getD dummyXmlRow)
      ∧ ((processRowXml rowNoIds).getD dummyXmlRow).ean = JVal.jstr ""
      ∧ xmlInserted payloadNoIds = [(processRowXml rowNoIds).getD dummyXmlRow]
      ∧ xmlSkipped payloadNoIds = 0 :=
  ⟨rfl, rfl, rfl, rfl, rfl⟩

/-- C3 amended: the CSV pipeline rejects a record whose product-id and
ean cells are both blank — it is skipped, never persisted, and
processing continues; the XML pipeline has no such check and persists a
record with no identifiers, storing the empty string as its ean. -/
theorem C3_amended_identifier_check :
    (∀ (rate : ℚ) (m : List (String × String)) (line : String),
        7 ≤ (legacyCols line).length →
        pyStrip ((legacyCols line).getD 1 "") = "" →
        pyStrip ((legacyCols line).getD 6 "") = "" →
        legacyProcessRowR rate m line = none)
      ∧ (∀ (row : JVal) (r : XmlRow),
          xmlNoIdentifiers row = true →
          processRowXml row = some r →
          r.ean = JVal.jstr "") := by
  constructor
  · intro rate m line h7 h1 h6
    simp only [legacyProcessRowR]
    rw [if_neg (by omega), if_pos ⟨h1, h6⟩]
  · intro row r hno h
    cases row with
    | jobj fs =>
      have hids : alistGet fs "Identifiers" = none := by
        simpa [xmlNoIdentifiers, Option.isNone_iff_eq_none] using hno
      have hean : xmlEan fs = some (JVal.jstr "") := by
        unfold xmlEan
        rw [hids]
        rfl
      simp only [processRowXml, asObjFields] at h
      split at h
      · exact absurd h (by simp)
      · simp only [hean] at h
        split at h
        · exact absurd h (by simp)
        · split at h
          · exact absurd h (by simp)
          · simp only [Option.some.injEq] at h
            subst h
            rfl
    | jnull => simp [xmlNoIdentifiers] at hno
    | jstr s => simp [xmlNoIdentifiers] at hno
    | jarr l => simp [xmlNoIdentifiers] at hno

/-- C3 amended witness: a concrete blank-identifier CSV line is
skipped, and the concrete identifier-less XML record is stored with an
empty ean. -/
theorem C3_amended_identifier_check_witness :
    7 ≤ (legacyCols ";;c;n;1;2;").length
      ∧ pyStrip ((legacyCols ";;c;n;1;2;").getD 1 "") = ""
      ∧ pyStrip ((legacyCols ";;c;n;1;2;").getD 6 "") = ""
      ∧ legacyProcessRowR PricingEngine.VAT_RATE [] ";;c;n;1;2;" = none
      ∧ xmlNoIdentifiers rowNoIds = true
      ∧ ((processRowXml rowNoIds).getD dummyXmlRow).ean = JVal.jstr "" :=
  ⟨by decide, by decide, by decide,
    C3_amended_identifier_check.1 PricingEngine.VAT_RATE [] ";;c;n;1;2;"
      (by decide) (by decide) (by decide),
    rfl,
    C3_amended_identifier_check.2 rowNoIds _ rfl rfl⟩

/-! ## C7 -/

/-- C7: with a nonempty token set, the endpoint requests limit + 1 rows
of the price-ascending result; when exactly limit + 1 rows come back,
has_more is true and exactly limit rows are returned (the extra row
trimmed); when at most limit rows come back, all are returned with
has_more false. -/
theorem C7_pagination (table : List DbRow) (q : String)
    (in_stock strict_mode : Bool) (limit offset : ℕ)
    (hne : (split_search_terms (pyStrip q)).isEmpty = false) :
    showcaseBody table q in_stock strict_mode limit offset
        = Except.ok (showcaseResp table q in_stock strict_mode limit offset,
            [if strict_mode then QMode.strictQ else QMode.fuzzyQ])
      ∧ (showcaseFetch table
          (showcasePred in_stock strict_mode (split_search_terms (pyStrip q)))
          limit offset).length ≤ limit + 1
      ∧ List.Pairwise (fun a b : DbRow => a.price ≤ b.price)
          (showcaseFetch table
            (showcasePred in_stock strict_mode (split_search_terms (pyStrip q)))
            limit offset)
      ∧ ((showcaseFetch table
            (showcasePred in_stock strict_mode (split_search_terms (pyStrip q)))
            limit offset).length = limit + 1 →
          (showcaseResp table q in_stock strict_mode limit offset).has_more = true
            ∧ (showcaseResp table q in_stock strict_mode limit offset).products.length
                = limit
            ∧ (showcaseResp table q in_stock strict_mode limit offset).products
                = ((showcaseFetch table
                      (showcasePred in_stock strict_mode
                        (split_search_terms (pyStrip q)))
                      limit offset).take limit).map toItem)
      ∧ ((showcaseFetch table
            (showcasePred in_stock strict_mode (split_search_terms (pyStrip q)))
            limit offset).length ≤ limit →
          (showcaseResp table q in_stock strict_mode limit offset).has_more = false
            ∧ (showcaseResp table q in_stock strict_mode limit offset).products
                = (showcaseFetch table
                    (showcasePred in_stock strict_mode
                      (split_search_terms (pyStrip q)))
                    limit offset).map toItem) := by
  refine ⟨?_, ?_, ?_, ?_, ?_⟩
  · simp [showcaseBody, hne]
  · exact List.length_take_le _ _
  · exact List.Pairwise.sublist
      ((List.take_sublist _ _).trans (List.drop_sublist _ _))
      (List.sorted_insertionSort _ _)
  · intro hlen
    refine ⟨by simp [showcaseResp, hlen], ?_, by simp [showcaseResp, hlen]⟩
    simp [showcaseResp, hlen]
  · intro hle
    have hm : ¬ (limit < (showcaseFetch table
        (showcasePred in_stock strict_mode (split_search_terms (pyStrip q)))
        limit offset).length) := by omega
    exact ⟨by simp [showcaseResp, hm], by simp [showcaseResp, hm]⟩

/-- C7 witness: on a concrete two-row table with limit 1 the fetch
returns 2 = limit + 1 rows sorted by ascending price, has_more is true
and exactly the cheaper row is returned. -/
theorem C7_pagination_witness :
    (split_search_terms (pyStrip "usb")).isEmpty = false
      ∧ showcaseFetch tableUsb
          (showcasePred true true (split_search_terms (pyStrip "usb"))) 1 0
          = [rowUsbB, rowUsbA]
      ∧ (showcaseResp tableUsb "usb" true true 1 0).has_more = true
      ∧ (showcaseResp tableUsb "usb" true true 1 0).products.length = 1
      ∧ (showcaseResp tableUsb "usb" true true 1 0).products = [toItem rowUsbB] := by
  have hfetch : showcaseFetch tableUsb
      (showcasePred true true (split_search_terms (pyStrip "usb"))) 1 0
      = [rowUsbB, rowUsbA] := by decide
  have h := C7_pagination tableUsb "usb" true true 1 0 (by decide)
  have hlen : (showcaseFetch tableUsb
      (showcasePred true true (split_search_terms (pyStrip "usb"))) 1 0).length
      = 1 + 1 := by rw [hfetch]; rfl
  refine ⟨by decide, hfetch, (h.2.2.2.1 hlen).1, (h.2.2.2.1 hlen).2.1, ?_⟩
  calc (showcaseResp tableUsb "usb" true true 1 0).products
      = ((showcaseFetch tableUsb
          (showcasePred true true (split_search_terms (pyStrip "usb"))) 1 0).take
            1).map toItem := (h.2.2.2.1 hlen).2.2
    _ = [toItem rowUsbB] := by rw [hfetch]; rfl

/-! ## C8 -/

/-- C8: when the products path resolves to a single (nonempty) object,
the run iterates exactly the one-element list holding that object —
so a one-item payload whose record survives normalization inserts
exactly that one row; when the path is missing, the run yields the
empty sequence without error, executes no writes and skips nothing. -/
theorem C8_single_object_normalization (data : JVal) (fs : List (String × JVal)) :
    (productsNode data = some (JVal.jobj fs) → fs ≠ [] →
        xmlIterItems data = [JVal.jobj fs]
          ∧ ∀ r : XmlRow, processRowXml (JVal.jobj fs) = some r →
              xmlInserted data = [r])
      ∧ (productsNode data = none →
          xmlIterItems data = []
            ∧ xmlRunTrace data = []
            ∧ xmlInserted data = []
            ∧ xmlSkipped data = 0) := by
  constructor
  · intro hobj hne
    have hiter : xmlIterItems data = [JVal.jobj fs] := by
      unfold xmlIterItems
      rw [hobj]
      simp [jTruthy, List.isEmpty_iff, hne]
    refine ⟨hiter, ?_⟩
    intro r hr
    unfold xmlInserted
    rw [hiter]
    simp [hr]
  · intro hnone
    have hiter : xmlIterItems data = [] := by
      unfold xmlIterItems
      rw [hnone]
    refine ⟨hiter, ?_, ?_, ?_⟩
    · unfold xmlRunTrace
      simp [hnone, jTruthyOpt]
    · unfold xmlInserted
      rw [hiter]
      rfl
    · unfold xmlSkipped
      rw [hiter]
      rfl

/-- C8 witness: the theorem applied to the concrete one-object payload
(the object is normalized to a one-element list and its row is the only
insert) and to a concrete payload without the products path. -/
theorem C8_single_object_normalization_witness :
    productsNode payloadOneObj
        = some (JVal.jobj [("Brand", JVal.jstr "ACME"),
            ("Identifiers", JVal.jobj [("ItemNumber", JVal.jstr "P1")])])
      ∧ xmlIterItems payloadOneObj = [rowItemNum]
      ∧ xmlInserted payloadOneObj = [(processRowXml rowItemNum).getD dummyXmlRow]
      ∧ productsNode payloadNoPath = none
      ∧ xmlIterItems payloadNoPath = []
      ∧ xmlRunTrace payloadNoPath = []
      ∧ xmlSkipped payloadNoPath = 0 := by
  have h := C8_single_object_normalization payloadOneObj
    [("Brand", JVal.jstr "ACME"),
     ("Identifiers", JVal.jobj [("ItemNumber", JVal.jstr "P1")])]
  have h2 := C8_single_object_normalization payloadNoPath []
  have hone := h.1 rfl (by simp)
  refine ⟨rfl, hone.1, hone.2 _ rfl, rfl, (h2.2 rfl).1, (h2.2 rfl).2.1,
    (h2.2 rfl).2.2.2⟩

/-! ## C9 helper lemmas -/

/-- A present, parsable secondary stock value is authoritative. -/
theorem finalStock_of_lookup (m : List (String × String)) (pid : String)
    (base : ℤ) (v : String) (n : ℚ) (hv : alistGet m pid = some v)
    (hn : parsePyFloat v = some n) :
    finalStock m pid base = some (pyTrunc n) := by
  unfold finalStock
  rw [hv]
  show (if v = "" then some base else Option.map pyTrunc (parsePyFloat v))
      = some (pyTrunc n)
  rcases eq_or_ne v "" with he | he
  · subst he
    rw [show parsePyFloat "" = none from rfl] at hn
    exact absurd hn (by simp)
  · rw [if_neg he, hn]
    rfl

/-- An absent secondary stock value leaves the primary stock. -/
theorem finalStock_of_absent (m : List (String × String)) (pid : String)
    (base : ℤ) (h : alistGet m pid = none) :
    finalStock m pid base = some base := by
  simp [finalStock, h]

/-! ## C9 -/

/-- C9: a record whose product key has a (parsable) entry in the
secondary stock source ends with that secondary value as its stock,
regardless of the primary-source stock; a record whose key has no
entry keeps the primary-source stock, and the absence is not an
error. -/
theorem C9_stock_enrichment :
    (∀ (m : List (String × String)) (pid : String) (base : ℤ) (v : String) (n : ℚ),
        alistGet m pid = some v → parsePyFloat v = some n →
        finalStock m pid base = some (pyTrunc n))
      ∧ (∀ (m : List (String × String)) (pid : String) (base : ℤ),
          alistGet m pid = none → finalStock m pid base = some base)
      ∧ (∀ (rate : ℚ) (m : List (String × String)) (line : String)
          (r : LegacyRow) (v : String) (n : ℚ),
          legacyProcessRowR rate m line = some r →
          alistGet m (pyStrip ((legacyCols line).getD 1 "")) = some v →
          parsePyFloat v = some n →
          r.stock = pyTrunc n)
      ∧ (∀ (rate : ℚ) (m : List (String × String)) (line : String)
          (r : LegacyRow),
          legacyProcessRowR rate m line = some r →
          alistGet m (pyStrip ((legacyCols line).getD 1 "")) = none →
          r.stock = (legacyNums (legacyCols line)).1) := by
  refine ⟨finalStock_of_lookup, finalStock_of_absent, ?_, ?_⟩
  · intro rate m line r v n h hv hn
    simp only [legacyProcessRowR] at h
    split at h
    · exact absurd h (by simp)
    · split at h
      · exact absurd h (by simp)
      · split at h
        · exact absurd h (by simp)
        · rename_i st heq
          rw [finalStock_of_lookup m _ _ v n hv hn] at heq
          simp only [Option.some.injEq] at heq h
          subst h
          exact heq.symm
  · intro rate m line r h hv
    simp only [legacyProcessRowR] at h
    split at h
    · exact absurd h (by simp)
    · split at h
      · exact absurd h (by simp)
      · split at h
        · exact absurd h (by simp)
        · rename_i st heq
          rw [finalStock_of_absent m _ _ hv] at heq
          simp only [Option.some.injEq] at heq h
          subst h
          exact heq.symm

/-- C9 witness: on a concrete line with primary stock 5 and secondary
entry "7", the stored stock is 7; without the secondary entry the
stored stock is the primary 5. -/
theorem C9_stock_enrichment_witness :
    alistGet [("P1", "7")] "P1" = some "7"
      ∧ parsePyFloat "7" = some ((7 : ℕ) : ℚ)
      ∧ finalStock [("P1", "7")] "P1" 5 = some (pyTrunc ((7 : ℕ) : ℚ))
      ∧ legacyProcessRowR PricingEngine.VAT_RATE [("P1", "7")] "B;P1;c;N;5;10;E1"
          = some ((legacyProcessRowR PricingEngine.VAT_RATE [("P1", "7")]
              "B;P1;c;N;5;10;E1").getD dummyLegacyRow)
      ∧ ((legacyProcessRowR PricingEngine.VAT_RATE [("P1", "7")]
            "B;P1;c;N;5;10;E1").getD dummyLegacyRow).stock = pyTrunc ((7 : ℕ) : ℚ)
      ∧ ((legacyProcessRowR PricingEngine.VAT_RATE [("P1", "7")]
            "B;P1;c;N;5;10;E1").getD dummyLegacyRow).stock = 7
      ∧ ((legacyProcessRowR PricingEngine.VAT_RATE [] "B;P1;c;N;5;10;E1").getD
            dummyLegacyRow).stock
          = (legacyNums (legacyCols "B;P1;c;N;5;10;E1")).1 := by
  have h1 : legacyProcessRowR PricingEngine.VAT_RATE [("P1", "7")]
      "B;P1;c;N;5;10;E1"
      = some ((legacyProcessRowR PricingEngine.VAT_RATE [("P1", "7")]
          "B;P1;c;N;5;10;E1").getD dummyLegacyRow) := rfl
  have h2 : legacyProcessRowR PricingEngine.VAT_RATE [] "B;P1;c;N;5;10;E1"
      = some ((legacyProcessRowR PricingEngine.VAT_RATE []
          "B;P1;c;N;5;10;E1").getD dummyLegacyRow) := rfl
  refine ⟨rfl, rfl,
    C9_stock_enrichment.1 [("P1", "7")] "P1" 5 "7" ((7 : ℕ) : ℚ) rfl rfl,
    h1,
    C9_stock_enrichment.2.2.1 PricingEngine.VAT_RATE [("P1", "7")]
      "B;P1;c;N;5;10;E1" _ "7" ((7 : ℕ) : ℚ) h1 rfl rfl,
    ?_,
    C9_stock_enrichment.2.2.2 PricingEngine.VAT_RATE [] "B;P1;c;N;5;10;E1" _
      h2 rfl⟩
  show pyTrunc ((7 : ℕ) : ℚ) = 7
  norm_num [pyTrunc]
